import Mathlib

/-!
Verification of the SMART FLOW v2 signal-scheduling core.

This file gives a shallow embedding, over `ℚ` and ordered association
lists (mirroring Python `dict` insertion order), of:

* `src/signal_controller.py` — the base `SignalController`
  (`start_cycle`, `_advance_to_next_lane`, `update_state`);
* `src/advanced_signal_controller.py` — `AdvancedSignalController`
  (`allocate_time`, `_calculate_priorities`, `_allocate_green_times`,
  `_create_phases`, `_create_emergency_plan`, `handle_emergency`,
  `update_state`);
* `src/multi_intersection_coordinator.py` —
  `MultiIntersectionCoordinator` (`calculate_offsets`,
  `get_network_metrics`).

Every call the Python code makes to `time.time()` is modelled by an
explicit `now : ℚ` argument of the corresponding Lean function, so each
wall-clock read in the source corresponds to one value supplied by the
caller of the embedding.  Fallible code (the `ZeroDivisionError` that
`allocate_time` can raise) is embedded in `Except`.
-/

namespace SmartFlow

/-- Python `int(x)` truncation toward zero, on rationals. -/
def pyint (x : ℚ) : ℤ := if 0 ≤ x then ⌊x⌋ else ⌈x⌉

/-- Python float modulo `x % m` (result has the sign of `m`; for `m > 0`
the result lies in `[0, m)`).  The source only evaluates it at positive
moduli. -/
def pymod (x m : ℚ) : ℚ := x - m * ⌊x / m⌋

/-- Embeds `models.SignalState`. -/
inductive SignalState where
  | RED
  | YELLOW
  | GREEN
deriving DecidableEq, Repr

/-- Embeds `models.PhaseType`. -/
inductive PhaseType where
  | THROUGH
  | PROTECTED_LEFT
  | PROTECTED_RIGHT
  | PERMISSIVE_TURN
  | PEDESTRIAN
  | EMERGENCY
deriving DecidableEq, Repr

/-- Embeds `models.SignalPhase`. -/
structure SignalPhase where
  phase_type : PhaseType
  lanes : List String
  duration : ℚ
  state : SignalState
deriving DecidableEq, Repr

/-- Embeds `advanced_signal_controller.SignalPlan`. -/
structure SignalPlan where
  phases : List SignalPhase
  total_cycle_time : ℚ
  emergency_override : Bool
deriving DecidableEq, Repr

/-- Embeds `advanced_signal_controller.SignalConfig` with its Python defaults
(`fairness_boost_factor = 1.5` is `3/2`). -/
structure SignalConfig where
  min_green : ℤ := 10
  max_green : ℤ := 60
  yellow_duration : ℤ := 3
  min_cycle_time : ℤ := 40
  max_cycle_time : ℤ := 180
  fairness_threshold : ℚ := 120
  fairness_boost_factor : ℚ := 3 / 2
deriving DecidableEq, Repr

/-- Embeds `advanced_signal_controller.LaneData`. -/
structure LaneData where
  vehicle_count : ℤ
  queue_length : ℚ
  wait_time : ℚ
  vehicle_types : List (String × ℤ)
  has_emergency : Bool
  pedestrian_count : ℤ
deriving DecidableEq, Repr

/-- Embeds `advanced_signal_controller.StateTransition`. -/
structure StateTransition where
  lane : String
  old_state : SignalState
  new_state : SignalState
  timestamp : ℚ
deriving DecidableEq, Repr

/-- A `LaneData` record with every field zero — the value a missing
lookup defaults to in the embedding (the source never actually misses:
it only looks lanes up under keys it just iterated). -/
def zeroLaneData : LaneData :=
  { vehicle_count := 0, queue_length := 0, wait_time := 0,
    vehicle_types := [], has_emergency := false, pedestrian_count := 0 }

/-- Python `dict` lookup on an association list (keys are unique, so
first match is the match). -/
def alookup {κ α : Type} [DecidableEq κ] (l : List (κ × α)) (k : κ) :
    Option α :=
  match l with
  | [] => none
  | p :: rest => if p.1 = k then some p.2 else alookup rest k

/-- Python ordered-`dict` assignment `d[k] = v` on an association list:
overwrite in place when the key exists, append otherwise. -/
def dset {α : Type} (l : List (String × α)) (k : String) (v : α) :
    List (String × α) :=
  if l.any (fun p => p.1 == k) then
    l.map (fun p => if p.1 = k then (k, v) else p)
  else l ++ [(k, v)]

/-- Insert into a list already sorted by descending `val`, before the
first element of smaller-or-equal value (so the overall sort is stable,
like Python `sorted(..., reverse=True)`). -/
def insertDescBy {α : Type} (val : α → ℤ) (x : α) : List α → List α
  | [] => [x]
  | y :: ys => if val y ≤ val x then x :: y :: ys else y :: insertDescBy val x ys

/-- Stable sort by descending `val` (Python `sorted(..., key=..., reverse=True)`). -/
def sortDescBy {α : Type} (val : α → ℤ) (l : List α) : List α :=
  l.foldr (insertDescBy val) []

/-- The whole mutable state of one `AdvancedSignalController` instance,
fields in `__init__` order (base-class `SignalController` fields first). -/
structure ControllerState where
  states : List (String × SignalState)
  green_times : List (String × ℤ)
  remaining_times : List (String × ℚ)
  active_lane : Option String
  lane_queue : List String
  last_green_times : List (String × ℚ)
  emergency_active : Bool
  emergency_lane : Option String
  emergency_start_time : Option ℚ
  manual_override_active : Bool
  manual_override_lane : Option String
  manual_override_end_time : Option ℚ
  current_plan : Option SignalPlan
  current_phase_index : ℕ
  phase_start_time : ℚ
  pending_pedestrian_phases : List (String × ℤ)
  pending_turn_phases : List (String × PhaseType × ℤ)
  transition_history : List StateTransition
deriving DecidableEq, Repr

/-- The state right after `AdvancedSignalController.__init__`. -/
def initState : ControllerState :=
  { states := [], green_times := [], remaining_times := [],
    active_lane := none, lane_queue := [], last_green_times := [],
    emergency_active := false, emergency_lane := none,
    emergency_start_time := none, manual_override_active := false,
    manual_override_lane := none, manual_override_end_time := none,
    current_plan := none, current_phase_index := 0, phase_start_time := 0,
    pending_pedestrian_phases := [], pending_turn_phases := [],
    transition_history := [] }

/-- Embeds `SignalController._advance_to_next_lane`. -/
def advance_to_next_lane (s : ControllerState) : ControllerState :=
  match s.lane_queue with
  | [] => { s with active_lane := none }
  | next :: rest =>
      { s with
        lane_queue := rest
        states := dset s.states next .GREEN
        remaining_times :=
          dset s.remaining_times next (((alookup s.green_times next).getD 0 : ℤ) : ℚ)
        active_lane := some next }

/-- Embeds `SignalController.start_cycle`. -/
def start_cycle (green_times : List (String × ℤ)) (s : ControllerState) :
    ControllerState :=
  advance_to_next_lane
    { s with
      green_times := green_times
      states := green_times.map (fun p => (p.1, SignalState.RED))
      remaining_times := green_times.map (fun p => (p.1, (0 : ℚ)))
      lane_queue := (sortDescBy (fun p => p.2) green_times).map Prod.fst
      active_lane := none }

/-- Embeds `SignalController.update_state` (the base-class state machine,
driven by the caller-supplied `elapsed`). -/
def base_update_state (cfg : SignalConfig) (elapsed : ℚ) (s : ControllerState) :
    ControllerState :=
  match s.active_lane with
  | none => s
  | some lane =>
      let rem := ((alookup s.remaining_times lane).getD 0) - elapsed
      let s1 := { s with remaining_times := dset s.remaining_times lane rem }
      if rem ≤ 0 then
        match (alookup s1.states lane).getD .RED with
        | .GREEN =>
            { s1 with
              states := dset s1.states lane .YELLOW
              remaining_times :=
                dset s1.remaining_times lane ((cfg.yellow_duration : ℤ) : ℚ) }
        | .YELLOW =>
            advance_to_next_lane
              { s1 with
                states := dset s1.states lane .RED
                remaining_times := dset s1.remaining_times lane 0 }
        | .RED => s1
      else s1

/-- Per-vehicle-class weighting loop of
`AdvancedSignalController._calculate_priorities`. -/
def type_weight (vts : List (String × ℤ)) : ℚ :=
  vts.foldl
    (fun acc p =>
      acc + (p.2 : ℚ) *
        (if p.1 = "bus" then 2
         else if p.1 = "truck" then 3 / 2
         else if p.1 = "bicycle" then 4 / 5
         else 1))
    0

/-- The four demand factors of `_calculate_priorities`
(`count·1.0 + queue·0.5 + wait·0.3 + type_weight·0.2`). -/
def base_priority (d : LaneData) : ℚ :=
  (d.vehicle_count : ℚ) * 1 + d.queue_length * (1 / 2) +
    d.wait_time * (3 / 10) + type_weight d.vehicle_types * (1 / 5)

/-- One lane of `_calculate_priorities`; `now` is the `time.time()`
value read at the top of the method.  A lane with no recorded positive
last-green time (`self._last_green_times.get(lane, 0.0)`) receives no
fairness boost, because of the source's `if last_green > 0` guard. -/
def lane_priority (cfg : SignalConfig) (last_green_times : List (String × ℚ))
    (now : ℚ) (lane : String) (d : LaneData) : ℚ :=
  let last_green := (alookup last_green_times lane).getD 0
  let fairness_boost : ℚ :=
    if 0 < last_green then
      if cfg.fairness_threshold < now - last_green then
        (now - last_green - cfg.fairness_threshold) * cfg.fairness_boost_factor
      else 0
    else 0
  max 0 (base_priority d + fairness_boost)

/-- Embeds `AdvancedSignalController._calculate_priorities`. -/
def calculate_priorities (cfg : SignalConfig)
    (last_green_times : List (String × ℚ)) (now : ℚ)
    (lane_data : List (String × LaneData)) : List (String × ℚ) :=
  lane_data.map (fun p => (p.1, lane_priority cfg last_green_times now p.1 p.2))

/-- Body of the allocation loop of
`AdvancedSignalController._allocate_green_times` for one lane. -/
def allocate_one_green (cfg : SignalConfig) (total_priority : ℚ)
    (d : LaneData) (priority : ℚ) : ℤ :=
  let share := priority / total_priority
  let t0 := pyint (60 * share)
  let t1 := max cfg.min_green (min cfg.max_green t0)
  if 50 < d.queue_length then
    min cfg.max_green (t1 + min 10 (pyint (d.queue_length / 10)))
  else t1

/-- Embeds `AdvancedSignalController._allocate_green_times`. -/
def allocate_green_times (cfg : SignalConfig)
    (priorities : List (String × ℚ)) (lane_data : List (String × LaneData)) :
    List (String × ℤ) :=
  let total_priority := (priorities.map Prod.snd).sum
  if total_priority = 0 then
    priorities.map (fun p => (p.1, cfg.min_green))
  else
    priorities.map (fun p =>
      (p.1,
        allocate_one_green cfg total_priority
          ((alookup lane_data p.1).getD zeroLaneData) p.2))

/-- Through/yellow phase pairs of `_create_phases` (lanes sorted by
descending green time; lanes with non-positive duration are skipped). -/
def through_phases (cfg : SignalConfig) (green_times : List (String × ℤ)) :
    List SignalPhase :=
  (sortDescBy (fun p => p.2) green_times).flatMap (fun p =>
    if p.2 ≤ 0 then []
    else
      [{ phase_type := .THROUGH, lanes := [p.1], duration := (p.2 : ℚ),
         state := .GREEN },
       { phase_type := .THROUGH, lanes := [p.1],
         duration := ((cfg.yellow_duration : ℤ) : ℚ), state := .YELLOW }])

/-- Pedestrian phases of `_create_phases`
(`crossing_time = 7.0 + (demand - 1) * 1.0`). -/
def pedestrian_phases (pending : List (String × ℤ)) : List SignalPhase :=
  pending.map (fun p =>
    { phase_type := .PEDESTRIAN, lanes := [p.1],
      duration := 7 + ((p.2 : ℚ) - 1) * 1, state := .GREEN })

/-- Turn phases of `_create_phases`
(`turn_duration = max(10, min(30, demand * 3))`, plus a yellow). -/
def turn_phases (cfg : SignalConfig)
    (pending : List (String × PhaseType × ℤ)) : List SignalPhase :=
  pending.flatMap (fun p =>
    [{ phase_type := p.2.1, lanes := [p.1],
       duration := ((max 10 (min 30 (p.2.2 * 3)) : ℤ) : ℚ), state := .GREEN },
     { phase_type := p.2.1, lanes := [p.1],
       duration := ((cfg.yellow_duration : ℤ) : ℚ), state := .YELLOW }])

/-- Embeds `AdvancedSignalController._create_phases` (the pending queues are
cleared by the caller of this pure function). -/
def create_phases (cfg : SignalConfig) (green_times : List (String × ℤ))
    (pend_ped : List (String × ℤ))
    (pend_turn : List (String × PhaseType × ℤ)) : List SignalPhase :=
  through_phases cfg green_times ++ pedestrian_phases pend_ped ++
    turn_phases cfg pend_turn

/-- The plan built by `AdvancedSignalController._create_emergency_plan`. -/
def emergency_plan (emergency_lane : String) : SignalPlan :=
  { phases :=
      [{ phase_type := .EMERGENCY, lanes := [emergency_lane], duration := 30,
         state := .GREEN }],
    total_cycle_time := 30, emergency_override := true }

/-- Embeds `AdvancedSignalController._create_emergency_plan` (also installs the
plan: `_current_plan`, `_current_phase_index`, `_phase_start_time`). -/
def create_emergency_plan (now : ℚ) (emergency_lane : String)
    (s : ControllerState) : SignalPlan × ControllerState :=
  (emergency_plan emergency_lane,
    { s with current_plan := some (emergency_plan emergency_lane),
             current_phase_index := 0, phase_start_time := now })

/-- Uniform scaling of all phase durations
(`phase.duration *= scale_factor`). -/
def scale_phases (factor : ℚ) (phases : List SignalPhase) : List SignalPhase :=
  phases.map (fun ph => { ph with duration := ph.duration * factor })

/-- The non-emergency path of `AdvancedSignalController.allocate_time`.
`Except.error ()` is the `ZeroDivisionError` raised by
`scale_factor = min_cycle_time / total_cycle_time` (or the `max` branch)
when the phase-duration sum is zero. -/
def allocate_time_normal (cfg : SignalConfig) (now : ℚ)
    (lane_data : List (String × LaneData)) (s : ControllerState) :
    Except Unit (SignalPlan × ControllerState) :=
  let priorities := calculate_priorities cfg s.last_green_times now lane_data
  let green_times := allocate_green_times cfg priorities lane_data
  let phases :=
    create_phases cfg green_times s.pending_pedestrian_phases
      s.pending_turn_phases
  let s1 := { s with pending_pedestrian_phases := [], pending_turn_phases := [] }
  let total : ℚ := (phases.map SignalPhase.duration).sum
  let finish := fun (phases : List SignalPhase) (total : ℚ) =>
    let plan : SignalPlan :=
      { phases := phases, total_cycle_time := total, emergency_override := false }
    Except.ok (plan,
      { s1 with current_plan := some plan, current_phase_index := 0,
                phase_start_time := now })
  if total < ((cfg.min_cycle_time : ℤ) : ℚ) then
    if total = 0 then .error ()
    else
      finish (scale_phases (((cfg.min_cycle_time : ℤ) : ℚ) / total) phases)
        ((cfg.min_cycle_time : ℤ) : ℚ)
  else if ((cfg.max_cycle_time : ℤ) : ℚ) < total then
    if total = 0 then .error ()
    else
      finish (scale_phases (((cfg.max_cycle_time : ℤ) : ℚ) / total) phases)
        ((cfg.max_cycle_time : ℤ) : ℚ)
  else finish phases total

/-- Embeds `AdvancedSignalController.allocate_time`.  The emergency
short-circuit mirrors the source exactly: `next(..., None)` yields the
first lane whose data has `has_emergency`, and the Python truthiness
test `if emergency_lane:` rejects both `None` and the empty string, so
an emergency on a lane named `""` falls through to the normal path. -/
def allocate_time (cfg : SignalConfig) (now : ℚ)
    (lane_data : List (String × LaneData)) (s : ControllerState) :
    Except Unit (SignalPlan × ControllerState) :=
  if lane_data.any (fun p => p.2.has_emergency) then
    match lane_data.find? (fun p => p.2.has_emergency) with
    | some (l, _) =>
        if l = "" then allocate_time_normal cfg now lane_data s
        else .ok (create_emergency_plan now l s)
    | none => allocate_time_normal cfg now lane_data s
  else allocate_time_normal cfg now lane_data s

/-- Embeds `AdvancedSignalController.handle_emergency`; `now` stands for the
`time.time()` reads in the method body. -/
def handle_emergency (now : ℚ) (lane : String) (s : ControllerState) :
    ControllerState :=
  let s1 :=
    { s with emergency_active := true, emergency_lane := some lane,
             emergency_start_time := some now }
  let s2 := (create_emergency_plan now lane s1).2
  if s2.states.any (fun p => p.1 == lane) then
    let old := (alookup s2.states lane).getD .RED
    { s2 with
      states :=
        s2.states.map (fun p =>
          if p.1 = lane then (p.1, SignalState.GREEN) else (p.1, SignalState.RED))
      transition_history :=
        s2.transition_history ++
          [{ lane := lane, old_state := old, new_state := .GREEN,
             timestamp := now }] }
  else s2

/-- The `GREEN → YELLOW → RED` step of the advanced `update_state`,
chosen from the *phase's* target state (not the lane's actual state). -/
def transition_target : SignalState → SignalState
  | .GREEN => .YELLOW
  | .YELLOW => .RED
  | .RED => .RED

/-- The per-lane loop run when the current phase's time is up: set every
configured lane of the phase to `target`, record the last-green time of
lanes that were green, and emit one transition per lane. -/
def apply_phase_end (now : ℚ) (target : SignalState) (lanes : List String)
    (start : ControllerState × List StateTransition) :
    ControllerState × List StateTransition :=
  lanes.foldl
    (fun acc lane =>
      let s := acc.1
      if s.states.any (fun q => q.1 == lane) then
        let old := (alookup s.states lane).getD .RED
        let s1 := { s with states := dset s.states lane target }
        let s2 :=
          if old = .GREEN then
            { s1 with last_green_times := dset s1.last_green_times lane now }
          else s1
        (s2, acc.2 ++
          [{ lane := lane, old_state := old, new_state := target,
             timestamp := now }])
      else acc)
    start

/-- The per-lane loop run when the next phase starts: install its target
state on every configured lane and emit one transition per lane. -/
def apply_phase_start (now : ℚ) (target : SignalState) (lanes : List String)
    (start : ControllerState × List StateTransition) :
    ControllerState × List StateTransition :=
  lanes.foldl
    (fun acc lane =>
      let s := acc.1
      if s.states.any (fun q => q.1 == lane) then
        let old := (alookup s.states lane).getD .RED
        ({ s with states := dset s.states lane target },
          acc.2 ++
            [{ lane := lane, old_state := old, new_state := target,
               timestamp := now }])
      else acc)
    start

/-- The plan-driven tail of `AdvancedSignalController.update_state`
(after the override and emergency gates): advance the current phase by
the wall clock (`now - _phase_start_time`), or fall back to the base
controller when there is no plan or the plan is exhausted. -/
def update_state_plan (cfg : SignalConfig) (now elapsed : ℚ)
    (s : ControllerState) : List StateTransition × ControllerState :=
  match s.current_plan with
  | some plan =>
      if h : s.current_phase_index < plan.phases.length then
        let phase := plan.phases.get ⟨s.current_phase_index, h⟩
        if phase.duration ≤ now - s.phase_start_time then
          let step1 :=
            apply_phase_end now (transition_target phase.state) phase.lanes
              (s, [])
          let s2 :=
            { step1.1 with
              current_phase_index := step1.1.current_phase_index + 1,
              phase_start_time := now }
          if h2 : s2.current_phase_index < plan.phases.length then
            let next := plan.phases.get ⟨s2.current_phase_index, h2⟩
            let step2 := apply_phase_start now next.state next.lanes (s2, step1.2)
            (step2.2, step2.1)
          else (step1.2, s2)
        else ([], s)
      else ([], base_update_state cfg elapsed s)
  | none => ([], base_update_state cfg elapsed s)

/-- The emergency gate of `update_state`.  Python tests
`if self._emergency_start_time and (current_time - start) >= 30.0`, so a
recorded start time of exactly `0.0` is falsy and the hold never expires
through this path. -/
def update_state_after_override (cfg : SignalConfig) (now elapsed : ℚ)
    (s : ControllerState) : List StateTransition × ControllerState :=
  if s.emergency_active then
    match s.emergency_start_time with
    | some t =>
        if t ≠ 0 ∧ 30 ≤ now - t then
          update_state_plan cfg now elapsed
            { s with emergency_active := false, emergency_lane := none,
                     emergency_start_time := none }
        else ([], s)
    | none => ([], s)
  else update_state_plan cfg now elapsed s

/-- Embeds `AdvancedSignalController.update_state`.  `now` is the
`current_time = time.time()` read at the top of the method; `elapsed`
is the caller-supplied `elapsed_time` argument, which the source only
forwards to the base controller's fallback path. -/
def update_state (cfg : SignalConfig) (now elapsed : ℚ) (s : ControllerState) :
    List StateTransition × ControllerState :=
  if s.manual_override_active then
    if (s.manual_override_end_time.getD 0) ≤ now then
      update_state_after_override cfg now elapsed
        { s with manual_override_active := false, manual_override_lane := none }
    else ([], s)
  else update_state_after_override cfg now elapsed s

/-! ### Multi-intersection coordinator -/

/-- Embeds `multi_intersection_coordinator.NetworkConfig`; `intersections`
keeps only the ordered key list of the Python dict. -/
structure NetworkConfig where
  intersections : List String
  connections : List (String × String)
  travel_times : List ((String × String) × ℚ)
  coordination_enabled : Bool
deriving DecidableEq, Repr

/-- The metric accumulators of `MultiIntersectionCoordinator`. -/
structure MetricsState where
  total_vehicles_processed : ℤ
  total_stops : ℤ
  total_travel_time : ℚ
  vehicle_count : ℤ
  network_delay : ℚ
deriving DecidableEq, Repr

/-- Embeds `multi_intersection_coordinator.NetworkMetrics`. -/
structure NetworkMetrics where
  average_travel_time : ℚ
  stops_per_vehicle : ℚ
  coordination_quality : ℚ
  total_throughput : ℤ
  network_delay : ℚ
deriving DecidableEq, Repr

/-- Embeds `MultiIntersectionCoordinator.update_metrics`. -/
def update_metrics (vehicle_travel_time : ℚ) (vehicle_stops : ℤ)
    (m : MetricsState) : MetricsState :=
  { m with
    total_travel_time := m.total_travel_time + vehicle_travel_time
    total_stops := m.total_stops + vehicle_stops
    vehicle_count := m.vehicle_count + 1
    total_vehicles_processed := m.total_vehicles_processed + 1 }

/-- Embeds `MultiIntersectionCoordinator.get_network_metrics`. -/
def get_network_metrics (m : MetricsState) : NetworkMetrics :=
  let avg := if 0 < m.vehicle_count then m.total_travel_time / (m.vehicle_count : ℚ) else 0
  let spv := if 0 < m.vehicle_count then (m.total_stops : ℚ) / (m.vehicle_count : ℚ) else 0
  let quality :=
    if 0 < m.vehicle_count then
      if spv ≤ 1 then 1 - spv / 2 else max 0 (1 - spv / 4)
    else 0
  { average_travel_time := avg, stops_per_vehicle := spv,
    coordination_quality := quality,
    total_throughput := m.total_vehicles_processed,
    network_delay := m.network_delay }

/-- Cycle time used by `calculate_offsets` for one intersection: a
registered controller contributes its `config.max_cycle_time`, an
unregistered one the default `60.0`.  The registry is modelled as an
association list from intersection id to that controller's
`max_cycle_time`. -/
def cycle_time_of (controllers : List (String × ℚ)) (iid : String) : ℚ :=
  (alookup controllers iid).getD 60

/-- The BFS loop of `MultiIntersectionCoordinator.calculate_offsets`.
Each recursive call pops one queue element; since every intersection is
enqueued at most once (it enters `processed` when enqueued), fuel
`connections.length + 1` never runs out before the queue drains. -/
def bfs_offsets (connections : List (String × String))
    (travel_times : List ((String × String) × ℚ))
    (controllers : List (String × ℚ)) :
    ℕ → List String → List String → List (String × ℚ) → List (String × ℚ)
  | 0, _, _, offsets => offsets
  | _ + 1, [], _, offsets => offsets
  | fuel + 1, current :: queue, processed, offsets =>
      let current_offset := (alookup offsets current).getD 0
      let cycle_time := cycle_time_of controllers current
      let step :=
        connections.foldl
          (fun (acc : List String × List String × List (String × ℚ)) c =>
            if c.1 = current ∧ ¬ acc.1.contains c.2 then
              let travel_time := (alookup travel_times c).getD 0
              (acc.1 ++ [c.2], acc.2.1 ++ [c.2],
                dset acc.2.2 c.2 (pymod (current_offset + travel_time) cycle_time))
            else acc)
          (processed, queue, offsets)
      bfs_offsets connections travel_times controllers fuel step.2.1 step.1
        step.2.2

/-- Embeds `MultiIntersectionCoordinator.calculate_offsets`: zero offsets when
no travel times are given; otherwise BFS propagation from the first
configured intersection, with every unreached intersection defaulted to
offset `0.0` afterwards. -/
def calculate_offsets (cfg : NetworkConfig) (controllers : List (String × ℚ))
    (travel_times : List ((String × String) × ℚ)) : List (String × ℚ) :=
  if travel_times.isEmpty then cfg.intersections.map (fun iid => (iid, (0 : ℚ)))
  else
    match cfg.intersections with
    | [] => []
    | ref :: _ =>
        let offsets :=
          bfs_offsets cfg.connections travel_times controllers
            (cfg.connections.length + 1) [ref] [ref] [(ref, (0 : ℚ))]
        cfg.intersections.foldl
          (fun offsets iid =>
            if offsets.any (fun p => p.1 == iid) then offsets
            else offsets ++ [(iid, (0 : ℚ))])
          offsets

/-- Modelled from the spec's words (for comparison with the source's
`lane_priority`): `fairness_boost = max(0, (time_since_last_green −
fairness_threshold) · fairness_boost_factor)`, applied to *every* lane,
including one that has never yet been green (for which the source's own
default last-green value is `0.0`). -/
def spec_fairness_boost (cfg : SignalConfig) (time_since_last_green : ℚ) : ℚ :=
  max 0 ((time_since_last_green - cfg.fairness_threshold) * cfg.fairness_boost_factor)

/-! ## Claims -/

/-- Lane-data input of the mutual-exclusion counterexample trace:
modest demand on `A`, heavy demand on `B`. -/
def c1_input : List (String × LaneData) :=
  [("A", { vehicle_count := 1, queue_length := 0, wait_time := 0,
           vehicle_types := [], has_emergency := false,
           pedestrian_count := 0 }),
   ("B", { vehicle_count := 10, queue_length := 0, wait_time := 0,
           vehicle_types := [], has_emergency := false,
           pedestrian_count := 0 })]

/-- The plan `allocate_time` produces for `c1_input` (green times
`B ↦ 54`, `A ↦ 10`; total 70, inside the cycle bounds). -/
def c1_plan : SignalPlan :=
  { phases :=
      [{ phase_type := .THROUGH, lanes := ["B"], duration := 54, state := .GREEN },
       { phase_type := .THROUGH, lanes := ["B"], duration := 3, state := .YELLOW },
       { phase_type := .THROUGH, lanes := ["A"], duration := 10, state := .GREEN },
       { phase_type := .THROUGH, lanes := ["A"], duration := 3, state := .YELLOW }],
    total_cycle_time := 70, emergency_override := false }

/-- Controller state right after `start_cycle({A:20, B:10})` (which put
`A` in GREEN) followed by `allocate_time(c1_input)` at wall-clock 0. -/
def c1_state : ControllerState :=
  { states := [("A", .GREEN), ("B", .RED)],
    green_times := [("A", 20), ("B", 10)],
    remaining_times := [("A", 20), ("B", 0)],
    active_lane := some "A", lane_queue := ["B"], last_green_times := [],
    emergency_active := false, emergency_lane := none,
    emergency_start_time := none, manual_override_active := false,
    manual_override_lane := none, manual_override_end_time := none,
    current_plan := some c1_plan, current_phase_index := 0,
    phase_start_time := 0, pending_pedestrian_phases := [],
    pending_turn_phases := [], transition_history := [] }

/-- C1 — the mutual-exclusion invariant is violated by the code.  With
configured lanes `A` (left GREEN by `start_cycle`) and `B`, one
`allocate_time` call whose demand puts `B`'s phase first, followed by
one `update_state` 54 s later (when that first phase has elapsed),
leaves `A` GREEN and `B` YELLOW at the same instant: two non-RED lanes.
No manual override and no emergency is ever active in this trace. -/
theorem c1_mutual_exclusion_violation :
    (allocate_time {} 0 c1_input
        (start_cycle [("A", 20), ("B", 10)] initState)).map
      (fun p => (update_state {} 54 1 p.2).2.states) =
      .ok [("A", .GREEN), ("B", .YELLOW)] := by
  have h1 : allocate_time {} 0 c1_input
      (start_cycle [("A", 20), ("B", 10)] initState) = .ok (c1_plan, c1_state) := by
    simp [allocate_time, allocate_time_normal, calculate_priorities,
      lane_priority, base_priority, type_weight, allocate_green_times,
      allocate_one_green, pyint, create_phases, through_phases,
      pedestrian_phases, turn_phases, sortDescBy, insertDescBy, scale_phases,
      emergency_plan, create_emergency_plan, zeroLaneData, initState, dset,
      alookup, start_cycle, advance_to_next_lane, c1_input, c1_plan, c1_state]
    norm_num [insertDescBy]
  have h2 : (update_state {} 54 1 c1_state).2.states =
      [("A", .GREEN), ("B", .YELLOW)] := by
    simp [update_state, update_state_after_override, update_state_plan,
      apply_phase_end, apply_phase_start, transition_target, base_update_state,
      advance_to_next_lane, dset, alookup, c1_plan, c1_state]
  simp [h1, Except.map, h2]


/-- C3 counterexample — a lane-data map whose only (hence first)
emergency lane is named `""`: because Python's `if emergency_lane:`
truthiness test rejects the empty string exactly like `None`,
`allocate_time` falls through to the normal path and returns a plan with
`emergency_override = false` and two phases, not the claimed one-phase
emergency plan. -/
theorem c3_empty_lane_name_counterexample :
    (allocate_time {} 0
        [("", { vehicle_count := 0, queue_length := 0, wait_time := 0,
                vehicle_types := [], has_emergency := true,
                pedestrian_count := 0 })] initState).map
      (fun p => (p.1.emergency_override, p.1.phases.length)) =
      .ok (false, 2) := by
  have h1 : allocate_time {} 0
      [("", { vehicle_count := 0, queue_length := 0, wait_time := 0,
              vehicle_types := [], has_emergency := true,
              pedestrian_count := 0 })] initState =
      .ok ({ phases :=
               [{ phase_type := .THROUGH, lanes := [""], duration := 400 / 13,
                  state := .GREEN },
                { phase_type := .THROUGH, lanes := [""], duration := 120 / 13,
                  state := .YELLOW }],
             total_cycle_time := 40, emergency_override := false },
           { initState with
             current_plan := some
               { phases :=
                   [{ phase_type := .THROUGH, lanes := [""], duration := 400 / 13,
                      state := .GREEN },
                    { phase_type := .THROUGH, lanes := [""], duration := 120 / 13,
                      state := .YELLOW }],
                 total_cycle_time := 40, emergency_override := false } }) := by
    simp [allocate_time, allocate_time_normal, calculate_priorities,
      lane_priority, base_priority, type_weight, allocate_green_times,
      allocate_one_green, pyint, create_phases, through_phases,
      pedestrian_phases, turn_phases, sortDescBy, insertDescBy, scale_phases,
      emergency_plan, create_emergency_plan, zeroLaneData, initState, dset,
      alookup]
    norm_num [insertDescBy]
  simp [h1, Except.map]


/-- A lane with a 100 m queue and no other demand (priority 50, green
time 10 + 10 queue bonus = 20 s). -/
def c4_heavy : LaneData :=
  { vehicle_count := 0, queue_length := 100, wait_time := 0,
    vehicle_types := [], has_emergency := false, pedestrian_count := 0 }

/-- Eight heavy-queue lanes plus one zero-demand lane: pre-rescale cycle
`8·(20+3) + (10+3) = 197 s > max_cycle_time`. -/
def c4_input : List (String × LaneData) :=
  [("l1", c4_heavy), ("l2", c4_heavy), ("l3", c4_heavy), ("l4", c4_heavy),
   ("l5", c4_heavy), ("l6", c4_heavy), ("l7", c4_heavy), ("l8", c4_heavy),
   ("z", zeroLaneData)]

/-- The plan `allocate_time` produces for `c4_input`: every duration
scaled by `180/197`, so lane `z`'s GREEN phase is `1800/197 < 10`. -/
def c4_plan : SignalPlan :=
  { phases :=
      [{ phase_type := .THROUGH, lanes := ["l1"], duration := 3600 / 197, state := .GREEN },
       { phase_type := .THROUGH, lanes := ["l1"], duration := 540 / 197, state := .YELLOW },
       { phase_type := .THROUGH, lanes := ["l2"], duration := 3600 / 197, state := .GREEN },
       { phase_type := .THROUGH, lanes := ["l2"], duration := 540 / 197, state := .YELLOW },
       { phase_type := .THROUGH, lanes := ["l3"], duration := 3600 / 197, state := .GREEN },
       { phase_type := .THROUGH, lanes := ["l3"], duration := 540 / 197, state := .YELLOW },
       { phase_type := .THROUGH, lanes := ["l4"], duration := 3600 / 197, state := .GREEN },
       { phase_type := .THROUGH, lanes := ["l4"], duration := 540 / 197, state := .YELLOW },
       { phase_type := .THROUGH, lanes := ["l5"], duration := 3600 / 197, state := .GREEN },
       { phase_type := .THROUGH, lanes := ["l5"], duration := 540 / 197, state := .YELLOW },
       { phase_type := .THROUGH, lanes := ["l6"], duration := 3600 / 197, state := .GREEN },
       { phase_type := .THROUGH, lanes := ["l6"], duration := 540 / 197, state := .YELLOW },
       { phase_type := .THROUGH, lanes := ["l7"], duration := 3600 / 197, state := .GREEN },
       { phase_type := .THROUGH, lanes := ["l7"], duration := 540 / 197, state := .YELLOW },
       { phase_type := .THROUGH, lanes := ["l8"], duration := 3600 / 197, state := .GREEN },
       { phase_type := .THROUGH, lanes := ["l8"], duration := 540 / 197, state := .YELLOW },
       { phase_type := .THROUGH, lanes := ["z"], duration := 1800 / 197, state := .GREEN },
       { phase_type := .THROUGH, lanes := ["z"], duration := 540 / 197, state := .YELLOW }],
    total_cycle_time := 180, emergency_override := false }

/-- C4 counterexample — nine lanes (eight with 100 m queues, one with no
demand) give a pre-rescale cycle of 197 s > `max_cycle_time = 180`; the
proportional rescale shrinks the no-demand lane's GREEN phase to
`1800/197 ≈ 9.14 < 10 = min_green`, so a through-phase duration of the
returned plan leaves `[min_green, max_green]`. -/
theorem c4_green_bound_counterexample :
    (allocate_time {} 0 c4_input initState).map
      (fun p =>
        p.1.phases.any (fun ph =>
          ph.state == SignalState.GREEN && decide (ph.duration < (10 : ℚ)))) =
      .ok true := by
  have h1 : allocate_time {} 0 c4_input initState =
      .ok (c4_plan, { initState with current_plan := some c4_plan }) := by
    simp [allocate_time, allocate_time_normal, calculate_priorities,
      lane_priority, base_priority, type_weight, allocate_green_times,
      allocate_one_green, pyint, create_phases, through_phases,
      pedestrian_phases, turn_phases, sortDescBy, insertDescBy, scale_phases,
      emergency_plan, create_emergency_plan, zeroLaneData, initState, dset,
      alookup, c4_input, c4_heavy, c4_plan]
    norm_num [insertDescBy]
  rw [h1]
  simp [Except.map, c4_plan, List.any]
  norm_num


/-- C5 — degenerate-input safety fails on the empty lane-data map: the
phase list is empty, the phase-duration sum is `0 < min_cycle_time`, and
`scale_factor = min_cycle_time / total_cycle_time` raises
`ZeroDivisionError` (the `.error ()` below).  A *nonempty* all-zero map,
in contrast, does take the equal-`min_green` fallback and yields a plan
(total cycle time 40 after the scale-up), as the second conjunct
records. -/
theorem c5_empty_input_raises :
    allocate_time {} 0 [] initState = .error () ∧
    (allocate_time {} 0 [("n", zeroLaneData)] initState).map
      (fun p => p.1.total_cycle_time) = .ok 40 := by
  constructor
  · simp [allocate_time, allocate_time_normal, calculate_priorities,
      allocate_green_times, create_phases, through_phases,
      pedestrian_phases, turn_phases, sortDescBy, scale_phases,
      initState]
  · have h1 : allocate_time {} 0 [("n", zeroLaneData)] initState =
        .ok ({ phases :=
                 [{ phase_type := .THROUGH, lanes := ["n"], duration := 400 / 13,
                    state := .GREEN },
                  { phase_type := .THROUGH, lanes := ["n"], duration := 120 / 13,
                    state := .YELLOW }],
               total_cycle_time := 40, emergency_override := false },
             { initState with
               current_plan := some
                 { phases :=
                     [{ phase_type := .THROUGH, lanes := ["n"], duration := 400 / 13,
                        state := .GREEN },
                      { phase_type := .THROUGH, lanes := ["n"], duration := 120 / 13,
                        state := .YELLOW }],
                   total_cycle_time := 40, emergency_override := false } }) := by
      simp [allocate_time, allocate_time_normal, calculate_priorities,
        lane_priority, base_priority, type_weight, allocate_green_times,
        allocate_one_green, pyint, create_phases, through_phases,
        pedestrian_phases, turn_phases, sortDescBy, insertDescBy, scale_phases,
        emergency_plan, create_emergency_plan, zeroLaneData, initState, dset,
        alookup]
      norm_num [insertDescBy]
    simp [h1, Except.map]


/-- C6 counterexample — a lane that has never been green gets *no*
fairness boost: at wall-clock 1000 with an empty last-green record, the
code's priority for a zero-demand lane is `0`, while the claimed
all-lanes formula (with the source's own never-green default
`last_green = 0.0`, so `time_since_last_green = 1000`) yields a boost of
`(1000 − 120) · 1.5 = 1320 ≠ 0`. -/
theorem c6_never_green_counterexample :
    calculate_priorities {} [] 1000 [("a", zeroLaneData)] = [("a", 0)] ∧
    spec_fairness_boost {} (1000 - 0) = 1320 ∧ (0 : ℚ) ≠ 1320 := by
  refine ⟨?_, ?_, by norm_num⟩
  · simp [calculate_priorities, lane_priority, base_priority, type_weight,
      alookup, zeroLaneData]
  · norm_num [spec_fairness_boost, max_def]

/-- C7 — the core is *not* wall-clock independent: two `update_state`
calls with the *same* caller-supplied `elapsed_time = 50` but different
`time.time()` readings (1 s vs 63 s after the plan was installed)
produce different state maps, because the advanced `update_state`
advances phases by `time.time() - _phase_start_time` and ignores its
`elapsed_time` argument on the plan path. -/
theorem c7_wall_clock_dependence :
    (allocate_time {} 0
        [("A", { vehicle_count := 1, queue_length := 0, wait_time := 0,
                 vehicle_types := [], has_emergency := false,
                 pedestrian_count := 0 })]
        (start_cycle [("A", 20)] initState)).map
      (fun p => (update_state {} 1 50 p.2).2.states) = .ok [("A", .GREEN)] ∧
    (allocate_time {} 0
        [("A", { vehicle_count := 1, queue_length := 0, wait_time := 0,
                 vehicle_types := [], has_emergency := false,
                 pedestrian_count := 0 })]
        (start_cycle [("A", 20)] initState)).map
      (fun p => (update_state {} 63 50 p.2).2.states) = .ok [("A", .YELLOW)] := by
  have h1 : allocate_time {} 0
      [("A", { vehicle_count := 1, queue_length := 0, wait_time := 0,
               vehicle_types := [], has_emergency := false,
               pedestrian_count := 0 })]
      (start_cycle [("A", 20)] initState) =
      .ok ({ phases :=
               [{ phase_type := .THROUGH, lanes := ["A"], duration := 60,
                  state := .GREEN },
                { phase_type := .THROUGH, lanes := ["A"], duration := 3,
                  state := .YELLOW }],
             total_cycle_time := 63, emergency_override := false },
           { states := [("A", .GREEN)], green_times := [("A", 20)],
             remaining_times := [("A", 20)], active_lane := some "A",
             lane_queue := [], last_green_times := [],
             emergency_active := false, emergency_lane := none,
             emergency_start_time := none, manual_override_active := false,
             manual_override_lane := none, manual_override_end_time := none,
             current_plan := some
               { phases :=
                   [{ phase_type := .THROUGH, lanes := ["A"], duration := 60,
                      state := .GREEN },
                    { phase_type := .THROUGH, lanes := ["A"], duration := 3,
                      state := .YELLOW }],
                 total_cycle_time := 63, emergency_override := false },
             current_phase_index := 0, phase_start_time := 0,
             pending_pedestrian_phases := [], pending_turn_phases := [],
             transition_history := [] }) := by
    simp [allocate_time, allocate_time_normal, calculate_priorities,
      lane_priority, base_priority, type_weight, allocate_green_times,
      allocate_one_green, pyint, create_phases, through_phases,
      pedestrian_phases, turn_phases, sortDescBy, insertDescBy, scale_phases,
      emergency_plan, create_emergency_plan, zeroLaneData, initState, dset,
      alookup, start_cycle, advance_to_next_lane]
    norm_num [insertDescBy]
  rw [h1]
  constructor
  · simp [Except.map, update_state, update_state_after_override,
      update_state_plan, apply_phase_end, apply_phase_start,
      transition_target, base_update_state, advance_to_next_lane, dset,
      alookup]
  · simp [Except.map, update_state, update_state_after_override,
      update_state_plan, apply_phase_end, apply_phase_start,
      transition_target, base_update_state, advance_to_next_lane, dset,
      alookup]
    norm_num


/-- C8 counterexample — `coordination_quality` is not a monotonically
decreasing function of stops-per-vehicle, and is not `1.0` at zero
stops-per-vehicle when no vehicle has been recorded: one vehicle with
one stop gives `(s, q) = (1, 1/2)`; five vehicles with six stops give
`(6/5, 7/10)` — strictly more stops per vehicle yet strictly *higher*
quality (the formula jumps upward when `s` crosses 1); and the fresh
accumulator gives `s = 0` with `q = 0 ≠ 1`. -/
theorem c8_quality_counterexample :
    (get_network_metrics
        { total_vehicles_processed := 1, total_stops := 1,
          total_travel_time := 10, vehicle_count := 1,
          network_delay := 0 }).stops_per_vehicle <
      (get_network_metrics
        { total_vehicles_processed := 5, total_stops := 6,
          total_travel_time := 10, vehicle_count := 5,
          network_delay := 0 }).stops_per_vehicle ∧
    (get_network_metrics
        { total_vehicles_processed := 1, total_stops := 1,
          total_travel_time := 10, vehicle_count := 1,
          network_delay := 0 }).coordination_quality <
      (get_network_metrics
        { total_vehicles_processed := 5, total_stops := 6,
          total_travel_time := 10, vehicle_count := 5,
          network_delay := 0 }).coordination_quality ∧
    (get_network_metrics
        { total_vehicles_processed := 0, total_stops := 0,
          total_travel_time := 0, vehicle_count := 0,
          network_delay := 0 }).stops_per_vehicle = 0 ∧
    (get_network_metrics
        { total_vehicles_processed := 0, total_stops := 0,
          total_travel_time := 0, vehicle_count := 0,
          network_delay := 0 }).coordination_quality = 0 := by
  refine ⟨?_, ?_, ?_, ?_⟩ <;>
    · simp [get_network_metrics]
      try norm_num


/-- C9 counterexample — with `A` registered at `max_cycle_time = 50`,
`B` registered at `70`, and travel time 60 on the single connection
`A → B`, the code returns `offset[B] = 60 mod 50 = 10`: the modulus is
the *upstream* (reference) intersection's cycle time, not `B`'s own
cycle time `70` as the claim states (`60 mod 70 = 60 ≠ 10`). -/
theorem c9_offset_counterexample :
    calculate_offsets
        { intersections := ["A", "B"], connections := [("A", "B")],
          travel_times := [(("A", "B"), 60)], coordination_enabled := true }
        [("A", 50), ("B", 70)] [(("A", "B"), 60)] = [("A", 0), ("B", 10)] ∧
    pymod 60 70 = 60 ∧ (10 : ℚ) ≠ 60 := by
  refine ⟨?_, by norm_num [pymod], by norm_num⟩
  simp [calculate_offsets, bfs_offsets, cycle_time_of, alookup, dset, pymod]
  norm_num


/-! ### Association-list lemmas -/

theorem alookup_map_kv {α β : Type} (f : String → α → β)
    (l : List (String × α)) (k : String) :
    alookup (l.map (fun p => (p.1, f p.1 p.2))) k =
      (alookup l k).map (f k) := by
  induction l with
  | nil => simp [alookup]
  | cons p rest ih =>
      by_cases h : p.1 = k
      · subst h
        simp [alookup]
      · simp [alookup, h, ih]

theorem any_key_eq_alookup_isSome {α : Type} (l : List (String × α))
    (k : String) :
    l.any (fun p => p.1 == k) = (alookup l k).isSome := by
  induction l with
  | nil => simp [alookup]
  | cons p rest ih =>
      by_cases h : p.1 = k
      · simp [alookup, h]
      · simp [alookup, h, ih]

/-- The states map `handle_emergency` installs when the lane is
configured: the forced lane GREEN, every other key RED. -/
theorem handle_emergency_states (now : ℚ) (L : String) (s : ControllerState)
    (h : (alookup s.states L).isSome = true) :
    (handle_emergency now L s).states =
      s.states.map (fun p =>
        (p.1, if p.1 = L then SignalState.GREEN else SignalState.RED)) := by
  have hany : (s.states.any (fun p => p.1 == L)) = true := by
    rw [any_key_eq_alookup_isSome]; exact h
  simp only [handle_emergency, create_emergency_plan, hany, if_true]
  congr 1
  funext p
  by_cases hp : p.1 = L <;> simp [hp]

/-- C2 — `handle_emergency(L)` on a configured lane `L` immediately
forces `L` to GREEN and every other configured lane to RED, and a
repeated call with the same lane leaves the state map unchanged
(idempotence on the displayed states). -/
theorem c2_emergency_preemption (s : ControllerState) (L : String)
    (now now2 : ℚ) (hL : (alookup s.states L).isSome = true) :
    alookup (handle_emergency now L s).states L = some .GREEN ∧
    (∀ l, l ≠ L →
      alookup (handle_emergency now L s).states l =
        (alookup s.states l).map (fun _ => SignalState.RED)) ∧
    (handle_emergency now2 L (handle_emergency now L s)).states =
      (handle_emergency now L s).states := by
  have h1 := handle_emergency_states now L s hL
  obtain ⟨st, hst⟩ := Option.isSome_iff_exists.mp hL
  refine ⟨?_, ?_, ?_⟩
  · rw [h1,
      alookup_map_kv (fun k _ => if k = L then SignalState.GREEN else SignalState.RED),
      hst]
    simp
  · intro l hl
    rw [h1,
      alookup_map_kv (fun k _ => if k = L then SignalState.GREEN else SignalState.RED)]
    cases halt : alookup s.states l <;> simp [hl]
  · have hL2 : (alookup (handle_emergency now L s).states L).isSome = true := by
      rw [h1,
        alookup_map_kv (fun k _ => if k = L then SignalState.GREEN else SignalState.RED),
        hst]
      simp
    have h2 := handle_emergency_states now2 L (handle_emergency now L s) hL2
    rw [h2, h1, List.map_map]
    congr 1

/-- Witness for the preemption theorem at a concrete two-lane state. -/
theorem c2_emergency_preemption_witness :
    alookup
        (handle_emergency 5 "n"
          { initState with
            states := [("n", .RED), ("e", .GREEN)] }).states "n" =
      some .GREEN ∧
    (∀ l, l ≠ "n" →
      alookup
          (handle_emergency 5 "n"
            { initState with
              states := [("n", .RED), ("e", .GREEN)] }).states l =
        (alookup
            ({ initState with
               states := [("n", .RED), ("e", .GREEN)] } :
              ControllerState).states l).map (fun _ => SignalState.RED)) ∧
    (handle_emergency 9 "n"
        (handle_emergency 5 "n"
          { initState with
            states := [("n", .RED), ("e", .GREEN)] })).states =
      (handle_emergency 5 "n"
        { initState with
          states := [("n", .RED), ("e", .GREEN)] }).states :=
  c2_emergency_preemption
    { initState with states := [("n", .RED), ("e", .GREEN)] } "n" 5 9
    (by simp [alookup, initState])


/-- C3 amended — for every lane-data map in which some lane has
`has_emergency` and the *first* such lane's name is nonempty (so it
passes Python's truthiness test), `allocate_time` short-circuits to the
one-phase emergency plan for that lane: `emergency_override = true` and
exactly one phase, a 30 s GREEN EMERGENCY phase for that lane. -/
theorem c3_emergency_short_circuit (cfg : SignalConfig) (now : ℚ)
    (lane_data : List (String × LaneData)) (s : ControllerState)
    (l : String) (d : LaneData)
    (hfind : lane_data.find? (fun p => p.2.has_emergency) = some (l, d))
    (hne : l ≠ "") :
    (allocate_time cfg now lane_data s).map
        (fun p => (p.1.emergency_override, p.1.phases)) =
      .ok (true,
        [{ phase_type := .EMERGENCY, lanes := [l], duration := 30,
           state := .GREEN }]) := by
  have hmem := List.mem_of_find?_eq_some hfind
  have hprop := List.find?_some hfind
  have hany : lane_data.any (fun p => p.2.has_emergency) = true :=
    List.any_eq_true.mpr ⟨(l, d), hmem, hprop⟩
  simp [allocate_time, hany, hfind, hne, create_emergency_plan,
    emergency_plan, Except.map]

/-- Witness for the emergency short-circuit at a concrete one-lane map. -/
theorem c3_emergency_short_circuit_witness :
    (allocate_time {} 0
        [("n", { vehicle_count := 0, queue_length := 0, wait_time := 0,
                 vehicle_types := [], has_emergency := true,
                 pedestrian_count := 0 })] initState).map
        (fun p => (p.1.emergency_override, p.1.phases)) =
      .ok (true,
        [{ phase_type := .EMERGENCY, lanes := ["n"], duration := 30,
           state := .GREEN }]) :=
  c3_emergency_short_circuit {} 0
    [("n", { vehicle_count := 0, queue_length := 0, wait_time := 0,
             vehicle_types := [], has_emergency := true,
             pedestrian_count := 0 })] initState "n"
    { vehicle_count := 0, queue_length := 0, wait_time := 0,
      vehicle_types := [], has_emergency := true, pedestrian_count := 0 }
    (by rfl) (by simp)


/-- All per-class weights in `type_weight` are positive, so the weighted
sum of nonnegative class counts is nonnegative. -/
theorem type_weight_nonneg (vts : List (String × ℤ))
    (h : ∀ p ∈ vts, 0 ≤ p.2) : 0 ≤ type_weight vts := by
  suffices hgen : ∀ acc : ℚ, 0 ≤ acc →
      0 ≤ vts.foldl
        (fun acc p =>
          acc + (p.2 : ℚ) *
            (if p.1 = "bus" then 2
             else if p.1 = "truck" then 3 / 2
             else if p.1 = "bicycle" then 4 / 5
             else 1))
        acc by
    exact hgen 0 le_rfl
  induction vts with
  | nil => intro acc hacc; simpa using hacc
  | cons p rest ih =>
      intro acc hacc
      have hp : (0 : ℤ) ≤ p.2 := h p (List.mem_cons_self p rest)
      have hw : (0 : ℚ) ≤
          (if p.1 = "bus" then 2
           else if p.1 = "truck" then 3 / 2
           else if p.1 = "bicycle" then 4 / 5
           else 1) := by
        split_ifs <;> norm_num
      have hstep : (0 : ℚ) ≤ acc + (p.2 : ℚ) *
          (if p.1 = "bus" then 2
           else if p.1 = "truck" then 3 / 2
           else if p.1 = "bicycle" then 4 / 5
           else 1) :=
        add_nonneg hacc (mul_nonneg (by exact_mod_cast hp) hw)
      simpa using ih (fun q hq => h q (List.mem_cons_of_mem p hq)) _ hstep

/-- The four demand factors are nonnegative on nonnegative inputs. -/
theorem base_priority_nonneg (d : LaneData) (hq : 0 ≤ d.queue_length)
    (hw : 0 ≤ d.wait_time) (hc : 0 ≤ d.vehicle_count)
    (ht : ∀ p ∈ d.vehicle_types, 0 ≤ p.2) : 0 ≤ base_priority d := by
  have h1 : (0 : ℚ) ≤ (d.vehicle_count : ℚ) := by exact_mod_cast hc
  have h2 := type_weight_nonneg d.vehicle_types ht
  unfold base_priority
  nlinarith


/-- C6 amended — the fairness boost applies only to a lane with a
*recorded positive* last-green time.  For such a lane `a` with zero
demand, the code's priority equals exactly the spec's
`max(0, base + max(0, (time_since_last_green − threshold) · factor))`,
and once `a`'s wait exceeds `threshold + base_priority(b) / factor` it
strictly outranks a lane `b` of static demand `db` whose own wait is
within the threshold. -/
theorem c6_fairness_amended (cfg : SignalConfig) (lgs : List (String × ℚ))
    (now g gb : ℚ) (a b : String) (db : LaneData)
    (hfac : 0 < cfg.fairness_boost_factor)
    (hga : alookup lgs a = some g) (hg : 0 < g)
    (hgb : alookup lgs b = some gb)
    (hnb : now - gb ≤ cfg.fairness_threshold)
    (hq : 0 ≤ db.queue_length) (hw : 0 ≤ db.wait_time)
    (hc : 0 ≤ db.vehicle_count)
    (ht : ∀ p ∈ db.vehicle_types, 0 ≤ p.2)
    (hout : cfg.fairness_threshold + base_priority db / cfg.fairness_boost_factor
      < now - g) :
    lane_priority cfg lgs now a zeroLaneData =
      max 0 (base_priority zeroLaneData + spec_fairness_boost cfg (now - g)) ∧
    lane_priority cfg lgs now b db < lane_priority cfg lgs now a zeroLaneData := by
  have hbase0 : base_priority zeroLaneData = 0 := by
    simp [base_priority, type_weight, zeroLaneData]
  have hbase : 0 ≤ base_priority db := base_priority_nonneg db hq hw hc ht
  have hfrac : 0 ≤ base_priority db / cfg.fairness_boost_factor :=
    div_nonneg hbase hfac.le
  have hth : cfg.fairness_threshold < now - g := by linarith
  have hboost : base_priority db <
      (now - g - cfg.fairness_threshold) * cfg.fairness_boost_factor := by
    have h1 : base_priority db / cfg.fairness_boost_factor <
        now - g - cfg.fairness_threshold := by linarith
    calc base_priority db
        = base_priority db / cfg.fairness_boost_factor * cfg.fairness_boost_factor := by
          field_simp
      _ < (now - g - cfg.fairness_threshold) * cfg.fairness_boost_factor :=
          mul_lt_mul_of_pos_right h1 hfac
  have hboost_nonneg : 0 ≤ (now - g - cfg.fairness_threshold) * cfg.fairness_boost_factor :=
    le_of_lt (lt_of_le_of_lt hbase hboost)
  have ha : lane_priority cfg lgs now a zeroLaneData =
      (now - g - cfg.fairness_threshold) * cfg.fairness_boost_factor := by
    simp only [lane_priority, hga, Option.getD_some, if_pos hg, if_pos hth,
      hbase0, zero_add]
    exact max_eq_right hboost_nonneg
  have hb : lane_priority cfg lgs now b db = base_priority db := by
    simp only [lane_priority, hgb, Option.getD_some]
    have hinner : ¬ cfg.fairness_threshold < now - gb := not_lt.mpr hnb
    by_cases hgbpos : 0 < gb
    · simp only [if_pos hgbpos, if_neg hinner, add_zero]
      exact max_eq_right hbase
    · simp only [if_neg hgbpos, add_zero]
      exact max_eq_right hbase
  constructor
  · rw [ha, hbase0, zero_add, spec_fairness_boost]
    rw [max_eq_right hboost_nonneg, max_eq_right hboost_nonneg]
  · rw [ha, hb]
    exact hboost

/-- Witness for the amended fairness claim: default config, lane `a`
last green at 1, lane `b` (2 vehicles) last green at 990, wall clock
1000. -/
theorem c6_fairness_amended_witness :
    lane_priority {} [("a", 1), ("b", 990)] 1000 "a" zeroLaneData =
      max 0 (base_priority zeroLaneData + spec_fairness_boost {} (1000 - 1)) ∧
    lane_priority {} [("a", 1), ("b", 990)] 1000 "b"
        { vehicle_count := 2, queue_length := 0, wait_time := 0,
          vehicle_types := [], has_emergency := false,
          pedestrian_count := 0 } <
      lane_priority {} [("a", 1), ("b", 990)] 1000 "a" zeroLaneData :=
  c6_fairness_amended {} [("a", 1), ("b", 990)] 1000 1 990 "a" "b"
    { vehicle_count := 2, queue_length := 0, wait_time := 0,
      vehicle_types := [], has_emergency := false, pedestrian_count := 0 }
    (by norm_num) (by simp [alookup]) (by norm_num) (by simp [alookup])
    (by norm_num) (by norm_num) (by norm_num) (by norm_num) (by simp)
    (by norm_num [base_priority, type_weight])


/-- C8 amended — restricted to accumulator states that have recorded at
least one vehicle (and nonnegative stop counts), `coordination_quality`
lies in `[0, 1]` and equals `1` at zero stops; it is nonincreasing in
stops-per-vehicle *within* each branch of its definition (both
stops-per-vehicle at most 1, or the smaller one above 1), but not across
the branch boundary, and a fresh accumulator reports quality 0. -/
theorem c8_quality_amended (m m1 m2 : MetricsState)
    (hm : 0 < m.vehicle_count) (hs : 0 ≤ m.total_stops)
    (h1v : 0 < m1.vehicle_count) (h2v : 0 < m2.vehicle_count) :
    (0 ≤ (get_network_metrics m).coordination_quality ∧
      (get_network_metrics m).coordination_quality ≤ 1) ∧
    (m.total_stops = 0 → (get_network_metrics m).coordination_quality = 1) ∧
    ((get_network_metrics m1).stops_per_vehicle ≤
        (get_network_metrics m2).stops_per_vehicle →
      (get_network_metrics m2).stops_per_vehicle ≤ 1 →
      (get_network_metrics m2).coordination_quality ≤
        (get_network_metrics m1).coordination_quality) ∧
    (1 < (get_network_metrics m1).stops_per_vehicle →
      (get_network_metrics m1).stops_per_vehicle ≤
        (get_network_metrics m2).stops_per_vehicle →
      (get_network_metrics m2).coordination_quality ≤
        (get_network_metrics m1).coordination_quality) := by
  have hspv : ∀ mm : MetricsState, 0 < mm.vehicle_count →
      (get_network_metrics mm).stops_per_vehicle =
        (mm.total_stops : ℚ) / (mm.vehicle_count : ℚ) := by
    intro mm h
    simp [get_network_metrics, h]
  have hqual : ∀ mm : MetricsState, 0 < mm.vehicle_count →
      (get_network_metrics mm).coordination_quality =
        (if (mm.total_stops : ℚ) / (mm.vehicle_count : ℚ) ≤ 1 then
          1 - (mm.total_stops : ℚ) / (mm.vehicle_count : ℚ) / 2
        else max 0 (1 - (mm.total_stops : ℚ) / (mm.vehicle_count : ℚ) / 4)) := by
    intro mm h
    simp [get_network_metrics, h]
  have hnn : ∀ mm : MetricsState, 0 < mm.vehicle_count → 0 ≤ mm.total_stops →
      0 ≤ (mm.total_stops : ℚ) / (mm.vehicle_count : ℚ) := by
    intro mm h hst
    have h1 : (0 : ℚ) ≤ (mm.total_stops : ℚ) := by exact_mod_cast hst
    have h2 : (0 : ℚ) ≤ (mm.vehicle_count : ℚ) := by
      exact_mod_cast le_of_lt h
    exact div_nonneg h1 h2
  refine ⟨?_, ?_, ?_, ?_⟩
  · rw [hqual m hm]
    have h0 := hnn m hm hs
    split_ifs with hcase
    · constructor <;> linarith
    · constructor
      · exact le_max_left 0 _
      · have : 1 - (m.total_stops : ℚ) / (m.vehicle_count : ℚ) / 4 ≤ 1 := by
          linarith
        exact max_le (by norm_num) this
  · intro h0
    rw [hqual m hm, h0]
    norm_num
  · intro hle h1
    rw [hspv m1 h1v] at hle
    rw [hspv m2 h2v] at hle h1
    have h1a : (m1.total_stops : ℚ) / (m1.vehicle_count : ℚ) ≤ 1 :=
      le_trans hle h1
    rw [hqual m1 h1v, hqual m2 h2v, if_pos h1a, if_pos h1]
    linarith
  · intro hgt hle
    rw [hspv m1 h1v] at hgt hle
    rw [hspv m2 h2v] at hle
    have h2a : ¬ (m1.total_stops : ℚ) / (m1.vehicle_count : ℚ) ≤ 1 :=
      not_le.mpr hgt
    have h2b : ¬ (m2.total_stops : ℚ) / (m2.vehicle_count : ℚ) ≤ 1 :=
      not_le.mpr (lt_of_lt_of_le hgt hle)
    rw [hqual m1 h1v, hqual m2 h2v, if_neg h2a, if_neg h2b]
    exact max_le_max le_rfl (by linarith)

/-- Witness for the amended coordination-quality claim at concrete
accumulators (stops-per-vehicle 0, 1/2 and 1). -/
theorem c8_quality_amended_witness :
    (0 ≤ (get_network_metrics
        { total_vehicles_processed := 1, total_stops := 0,
          total_travel_time := 5, vehicle_count := 1,
          network_delay := 0 }).coordination_quality ∧
      (get_network_metrics
        { total_vehicles_processed := 1, total_stops := 0,
          total_travel_time := 5, vehicle_count := 1,
          network_delay := 0 }).coordination_quality ≤ 1) ∧
    (({ total_vehicles_processed := 1, total_stops := 0,
        total_travel_time := 5, vehicle_count := 1,
        network_delay := 0 } : MetricsState).total_stops = 0 →
      (get_network_metrics
        { total_vehicles_processed := 1, total_stops := 0,
          total_travel_time := 5, vehicle_count := 1,
          network_delay := 0 }).coordination_quality = 1) ∧
    ((get_network_metrics
        { total_vehicles_processed := 2, total_stops := 1,
          total_travel_time := 5, vehicle_count := 2,
          network_delay := 0 }).stops_per_vehicle ≤
        (get_network_metrics
          { total_vehicles_processed := 1, total_stops := 1,
            total_travel_time := 5, vehicle_count := 1,
            network_delay := 0 }).stops_per_vehicle →
      (get_network_metrics
          { total_vehicles_processed := 1, total_stops := 1,
            total_travel_time := 5, vehicle_count := 1,
            network_delay := 0 }).stops_per_vehicle ≤ 1 →
      (get_network_metrics
          { total_vehicles_processed := 1, total_stops := 1,
            total_travel_time := 5, vehicle_count := 1,
            network_delay := 0 }).coordination_quality ≤
        (get_network_metrics
          { total_vehicles_processed := 2, total_stops := 1,
            total_travel_time := 5, vehicle_count := 2,
            network_delay := 0 }).coordination_quality) ∧
    (1 < (get_network_metrics
        { total_vehicles_processed := 2, total_stops := 1,
          total_travel_time := 5, vehicle_count := 2,
          network_delay := 0 }).stops_per_vehicle →
      (get_network_metrics
          { total_vehicles_processed := 2, total_stops := 1,
            total_travel_time := 5, vehicle_count := 2,
            network_delay := 0 }).stops_per_vehicle ≤
        (get_network_metrics
          { total_vehicles_processed := 1, total_stops := 1,
            total_travel_time := 5, vehicle_count := 1,
            network_delay := 0 }).stops_per_vehicle →
      (get_network_metrics
          { total_vehicles_processed := 1, total_stops := 1,
            total_travel_time := 5, vehicle_count := 1,
            network_delay := 0 }).coordination_quality ≤
        (get_network_metrics
          { total_vehicles_processed := 2, total_stops := 1,
            total_travel_time := 5, vehicle_count := 2,
            network_delay := 0 }).coordination_quality) :=
  c8_quality_amended
    { total_vehicles_processed := 1, total_stops := 0,
      total_travel_time := 5, vehicle_count := 1, network_delay := 0 }
    { total_vehicles_processed := 2, total_stops := 1,
      total_travel_time := 5, vehicle_count := 2, network_delay := 0 }
    { total_vehicles_processed := 1, total_stops := 1,
      total_travel_time := 5, vehicle_count := 1, network_delay := 0 }
    (by norm_num) (by norm_num) (by norm_num) (by norm_num)


/-- Python float modulo by a positive modulus is nonnegative. -/
theorem pymod_nonneg (x m : ℚ) (hm : 0 < m) : 0 ≤ pymod x m := by
  unfold pymod
  have h := Int.floor_le (x / m)
  have h2 : m * ((⌊x / m⌋ : ℤ) : ℚ) ≤ m * (x / m) :=
    mul_le_mul_of_nonneg_left h hm.le
  have hx : m * (x / m) = x := by field_simp
  linarith

/-- Python float modulo by a positive modulus is below the modulus. -/
theorem pymod_lt (x m : ℚ) (hm : 0 < m) : pymod x m < m := by
  unfold pymod
  have h := Int.lt_floor_add_one (x / m)
  have h2 : m * (x / m) < m * (((⌊x / m⌋ : ℤ) : ℚ) + 1) :=
    mul_lt_mul_of_pos_left h hm
  have hx : m * (x / m) = x := by field_simp
  nlinarith

/-- C9 amended — for the two-intersection network `A → B` with travel
time `T`, `A` registered with cycle time `cA > 0` and `B` with `cB`,
`calculate_offsets` yields `offset[A] = 0` and
`offset[B] = T mod cA` — the modulus is the *upstream/reference*
intersection's cycle time (the §4.2 formula), not `B`'s own — and the
non-reference offset lies in `[0, cA)`. -/
theorem c9_offsets_amended (T cA cB : ℚ) (hA : 0 < cA) :
    calculate_offsets
        { intersections := ["A", "B"], connections := [("A", "B")],
          travel_times := [(("A", "B"), T)], coordination_enabled := true }
        [("A", cA), ("B", cB)] [(("A", "B"), T)] =
      [("A", 0), ("B", pymod T cA)] ∧
    0 ≤ pymod T cA ∧ pymod T cA < cA := by
  refine ⟨?_, pymod_nonneg T cA hA, pymod_lt T cA hA⟩
  simp [calculate_offsets, bfs_offsets, cycle_time_of, alookup, dset]

/-- Witness for the amended offset claim at `T = 60`, `cA = 50`,
`cB = 70`. -/
theorem c9_offsets_amended_witness :
    calculate_offsets
        { intersections := ["A", "B"], connections := [("A", "B")],
          travel_times := [(("A", "B"), 60)], coordination_enabled := true }
        [("A", 50), ("B", 70)] [(("A", "B"), 60)] =
      [("A", 0), ("B", pymod 60 50)] ∧
    0 ≤ pymod 60 50 ∧ pymod 60 50 < 50 :=
  c9_offsets_amended 60 50 70 (by norm_num)


/-- C10 — `handle_emergency` on an *unconfigured* lane name does not
raise, changes no configured lane's displayed state and records no
transition, yet still arms the emergency hold; every `update_state`
call strictly within the 30-second hold then returns an empty
transition list and leaves the lane states untouched. -/
theorem c10_unknown_lane_emergency (cfg : SignalConfig) (s : ControllerState)
    (lane : String) (now now2 elapsed : ℚ)
    (hlane : alookup s.states lane = none)
    (hwithin : now2 - now < 30) :
    (handle_emergency now lane s).states = s.states ∧
    (handle_emergency now lane s).transition_history = s.transition_history ∧
    (handle_emergency now lane s).emergency_active = true ∧
    (update_state cfg now2 elapsed (handle_emergency now lane s)).1 = [] ∧
    (update_state cfg now2 elapsed (handle_emergency now lane s)).2.states =
      s.states := by
  have hany : (s.states.any (fun p => p.1 == lane)) = false := by
    rw [any_key_eq_alookup_isSome, hlane]
    rfl
  have hs' : handle_emergency now lane s =
      { s with emergency_active := true, emergency_lane := some lane,
               emergency_start_time := some now,
               current_plan := some (emergency_plan lane),
               current_phase_index := 0, phase_start_time := now } := by
    simp [handle_emergency, create_emergency_plan, hany]
  have hcond : ¬ (now ≠ 0 ∧ 30 ≤ now2 - now) := by
    rintro ⟨-, h30⟩
    linarith
  have hupd : (update_state cfg now2 elapsed (handle_emergency now lane s)).1 = [] ∧
      (update_state cfg now2 elapsed (handle_emergency now lane s)).2.states =
        s.states := by
    rw [hs']
    by_cases hmo : s.manual_override_active
    · by_cases hend : s.manual_override_end_time.getD 0 ≤ now2
      · constructor <;>
          simp [update_state, hmo, hend, update_state_after_override, hcond]
      · constructor <;> simp [update_state, hmo, hend]
    · constructor <;> simp [update_state, hmo, update_state_after_override, hcond]
  exact ⟨by rw [hs'], by rw [hs'], by rw [hs'], hupd.1, hupd.2⟩

/-- Witness for the unknown-lane emergency claim: one configured lane
`n`, emergency raised for the unconfigured name `ghost` at time 1,
update at time 20 (19 s into the hold). -/
theorem c10_unknown_lane_emergency_witness :
    (handle_emergency 1 "ghost" (start_cycle [("n", 20)] initState)).states =
      (start_cycle [("n", 20)] initState).states ∧
    (handle_emergency 1 "ghost"
        (start_cycle [("n", 20)] initState)).transition_history =
      (start_cycle [("n", 20)] initState).transition_history ∧
    (handle_emergency 1 "ghost"
        (start_cycle [("n", 20)] initState)).emergency_active = true ∧
    (update_state {} 20 5
        (handle_emergency 1 "ghost" (start_cycle [("n", 20)] initState))).1 =
      [] ∧
    (update_state {} 20 5
        (handle_emergency 1 "ghost"
          (start_cycle [("n", 20)] initState))).2.states =
      (start_cycle [("n", 20)] initState).states :=
  c10_unknown_lane_emergency {} (start_cycle [("n", 20)] initState) "ghost" 1 20 5
    (by simp [start_cycle, advance_to_next_lane, dset, alookup, initState,
      sortDescBy, insertDescBy])
    (by norm_num)


/-! ### Bounds of the green-time allocation -/

theorem allocate_one_green_bounds (cfg : SignalConfig) (tp : ℚ) (d : LaneData)
    (pr : ℚ) (h2 : cfg.min_green ≤ cfg.max_green) :
    cfg.min_green ≤ allocate_one_green cfg tp d pr ∧
      allocate_one_green cfg tp d pr ≤ cfg.max_green := by
  unfold allocate_one_green
  set t0 := pyint (60 * (pr / tp)) with ht0
  have hlo : cfg.min_green ≤ max cfg.min_green (min cfg.max_green t0) :=
    le_max_left _ _
  have hhi : max cfg.min_green (min cfg.max_green t0) ≤ cfg.max_green :=
    max_le h2 (min_le_left _ _)
  by_cases hq : 50 < d.queue_length
  · simp only [if_pos hq]
    have hqnn : (0 : ℚ) ≤ d.queue_length / 10 := by
      have : (0 : ℚ) ≤ d.queue_length := by linarith
      positivity
    have hext : (0 : ℤ) ≤ min 10 (pyint (d.queue_length / 10)) := by
      have : (0 : ℤ) ≤ pyint (d.queue_length / 10) := by
        unfold pyint
        rw [if_pos hqnn]
        exact Int.floor_nonneg.mpr hqnn
      exact le_min (by norm_num) this
    constructor
    · exact le_min h2 (by linarith [hlo])
    · exact min_le_left _ _
  · simp only [if_neg hq]
    exact ⟨hlo, hhi⟩

theorem allocate_green_times_bounds (cfg : SignalConfig)
    (priorities : List (String × ℚ)) (lane_data : List (String × LaneData))
    (h2 : cfg.min_green ≤ cfg.max_green) :
    ∀ lt ∈ allocate_green_times cfg priorities lane_data,
      cfg.min_green ≤ lt.2 ∧ lt.2 ≤ cfg.max_green := by
  intro lt hmem
  unfold allocate_green_times at hmem
  by_cases htot : (priorities.map Prod.snd).sum = 0
  · rw [if_pos htot] at hmem
    obtain ⟨p, -, hp⟩ := List.mem_map.mp hmem
    rw [← hp]
    exact ⟨le_refl _, h2⟩
  · rw [if_neg htot] at hmem
    obtain ⟨p, -, hp⟩ := List.mem_map.mp hmem
    rw [← hp]
    exact allocate_one_green_bounds cfg _ _ _ h2

theorem allocate_green_times_ne_nil (cfg : SignalConfig)
    (priorities : List (String × ℚ)) (lane_data : List (String × LaneData))
    (hne : priorities ≠ []) :
    allocate_green_times cfg priorities lane_data ≠ [] := by
  unfold allocate_green_times
  by_cases htot : (priorities.map Prod.snd).sum = 0 <;>
    simp [htot, hne]

/-! ### The stable descending sort -/

theorem mem_insertDescBy {α : Type} (val : α → ℤ) (x y : α) (l : List α) :
    y ∈ insertDescBy val x l ↔ y = x ∨ y ∈ l := by
  induction l with
  | nil => simp [insertDescBy]
  | cons z rest ih =>
      by_cases h : val z ≤ val x
      · simp [insertDescBy, h]
      · simp [insertDescBy, h, ih]
        tauto

theorem mem_sortDescBy {α : Type} (val : α → ℤ) (y : α) (l : List α) :
    y ∈ sortDescBy val l ↔ y ∈ l := by
  induction l with
  | nil => simp [sortDescBy]
  | cons z rest ih =>
      simp only [sortDescBy, List.foldr_cons] at ih ⊢
      rw [mem_insertDescBy]
      simp [ih]

theorem length_insertDescBy {α : Type} (val : α → ℤ) (x : α) (l : List α) :
    (insertDescBy val x l).length = l.length + 1 := by
  induction l with
  | nil => simp [insertDescBy]
  | cons z rest ih =>
      by_cases h : val z ≤ val x <;> simp [insertDescBy, h, ih]

theorem length_sortDescBy {α : Type} (val : α → ℤ) (l : List α) :
    (sortDescBy val l).length = l.length := by
  induction l with
  | nil => simp [sortDescBy]
  | cons z rest ih =>
      simp only [sortDescBy, List.foldr_cons] at ih ⊢
      rw [length_insertDescBy, ih, List.length_cons]

theorem sortDescBy_ne_nil {α : Type} (val : α → ℤ) (l : List α)
    (h : l ≠ []) : sortDescBy val l ≠ [] := by
  intro hnil
  have hlen := length_sortDescBy val l
  rw [hnil] at hlen
  exact h (List.eq_nil_of_length_eq_zero hlen.symm)


theorem through_phases_duration (cfg : SignalConfig)
    (gt : List (String × ℤ)) :
    ∀ ph ∈ through_phases cfg gt,
      (∃ p ∈ gt, 0 < p.2 ∧ ph.duration = (p.2 : ℚ)) ∨
        ph.duration = ((cfg.yellow_duration : ℤ) : ℚ) := by
  intro ph hm
  unfold through_phases at hm
  obtain ⟨p, hp, hph⟩ := List.mem_flatMap.mp hm
  rw [mem_sortDescBy] at hp
  by_cases h0 : p.2 ≤ 0
  · rw [if_pos h0] at hph
    simp at hph
  · rw [if_neg h0] at hph
    push_neg at h0
    simp only [List.mem_cons, List.not_mem_nil, or_false] at hph
    rcases hph with hph | hph
    · exact Or.inl ⟨p, hp, h0, by rw [hph]⟩
    · exact Or.inr (by rw [hph])

theorem through_phases_ne_nil (cfg : SignalConfig) (gt : List (String × ℤ))
    (hne : gt ≠ []) (hpos : ∀ p ∈ gt, 0 < p.2) :
    through_phases cfg gt ≠ [] := by
  unfold through_phases
  have hs := sortDescBy_ne_nil (fun p => p.2) gt hne
  cases hsort : sortDescBy (fun p => p.2) gt with
  | nil => exact absurd hsort hs
  | cons q rest =>
      have hq : q ∈ gt :=
        (mem_sortDescBy (fun p => p.2) q gt).mp
          (hsort ▸ List.mem_cons_self q rest)
      have h0 : ¬ q.2 ≤ 0 := not_le.mpr (hpos q hq)
      simp [List.flatMap_cons, h0]

/-- With no pending pedestrian or turn requests, `_create_phases`
produces exactly the through/yellow pairs. -/
theorem create_phases_nil (cfg : SignalConfig) (gt : List (String × ℤ)) :
    create_phases cfg gt [] [] = through_phases cfg gt := by
  simp [create_phases, pedestrian_phases, turn_phases]


/-- The non-emergency allocation path succeeds with a clamped total
cycle time whenever the lane map is nonempty, the pending queues are
empty, and the configuration is sane. -/
theorem allocate_time_normal_bounds (cfg : SignalConfig) (now : ℚ)
    (lane_data : List (String × LaneData)) (s : ControllerState)
    (hne : lane_data ≠ [])
    (hped : s.pending_pedestrian_phases = [])
    (hturn : s.pending_turn_phases = [])
    (h1 : 0 < cfg.min_green) (h2 : cfg.min_green ≤ cfg.max_green)
    (h3 : 0 < cfg.yellow_duration)
    (h5 : cfg.min_cycle_time ≤ cfg.max_cycle_time) :
    ∃ plan s2, allocate_time_normal cfg now lane_data s = .ok (plan, s2) ∧
      ((cfg.min_cycle_time : ℤ) : ℚ) ≤ plan.total_cycle_time ∧
      plan.total_cycle_time ≤ ((cfg.max_cycle_time : ℤ) : ℚ) := by
  have hpne : calculate_priorities cfg s.last_green_times now lane_data ≠ [] := by
    unfold calculate_priorities
    simpa using hne
  have hGne :=
    allocate_green_times_ne_nil cfg
      (calculate_priorities cfg s.last_green_times now lane_data) lane_data hpne
  have hGb :=
    allocate_green_times_bounds cfg
      (calculate_priorities cfg s.last_green_times now lane_data) lane_data h2
  have hGpos : ∀ p ∈ allocate_green_times cfg
      (calculate_priorities cfg s.last_green_times now lane_data) lane_data,
      0 < p.2 :=
    fun p hp => lt_of_lt_of_le h1 (hGb p hp).1
  have hphne :=
    through_phases_ne_nil cfg
      (allocate_green_times cfg
        (calculate_priorities cfg s.last_green_times now lane_data) lane_data)
      hGne hGpos
  have hdur : ∀ ph ∈ through_phases cfg
      (allocate_green_times cfg
        (calculate_priorities cfg s.last_green_times now lane_data) lane_data),
      0 < ph.duration := by
    intro ph hm
    rcases through_phases_duration cfg _ ph hm with ⟨p, _, h0, hd⟩ | hd
    · rw [hd]
      exact_mod_cast h0
    · rw [hd]
      exact_mod_cast h3
  have hsum : 0 < ((through_phases cfg
      (allocate_green_times cfg
        (calculate_priorities cfg s.last_green_times now lane_data)
        lane_data)).map SignalPhase.duration).sum := by
    apply List.sum_pos
    · intro a ha
      obtain ⟨ph, hph, rfl⟩ := List.mem_map.mp ha
      exact hdur ph hph
    · intro hmapnil
      exact hphne (List.map_eq_nil_iff.mp hmapnil)
  simp only [allocate_time_normal, hped, hturn, create_phases_nil]
  set T := ((through_phases cfg
      (allocate_green_times cfg
        (calculate_priorities cfg s.last_green_times now lane_data)
        lane_data)).map SignalPhase.duration).sum with hT
  have hTne : ¬ T = 0 := ne_of_gt hsum
  by_cases hlt : T < ((cfg.min_cycle_time : ℤ) : ℚ)
  · rw [if_pos hlt, if_neg hTne]
    refine ⟨_, _, rfl, le_refl _, ?_⟩
    show ((cfg.min_cycle_time : ℤ) : ℚ) ≤ ((cfg.max_cycle_time : ℤ) : ℚ)
    exact_mod_cast h5
  · by_cases hgt : ((cfg.max_cycle_time : ℤ) : ℚ) < T
    · rw [if_neg hlt, if_pos hgt, if_neg hTne]
      refine ⟨_, _, rfl, ?_, le_refl _⟩
      show ((cfg.min_cycle_time : ℤ) : ℚ) ≤ ((cfg.max_cycle_time : ℤ) : ℚ)
      exact_mod_cast h5
    · rw [if_neg hlt, if_neg hgt]
      exact ⟨_, _, rfl, not_lt.mp hlt, not_lt.mp hgt⟩


/-- C4 amended — for every *nonempty* non-emergency lane-data map (and
no pending pedestrian/turn requests), every *allocated green time* lies
in `[min_green, max_green]` and the returned plan's `total_cycle_time`
lies in `[min_cycle_time, max_cycle_time]`; after the proportional
cycle rescaling, however, an individual GREEN *phase duration* may leave
`[min_green, max_green]` (see the counterexample). -/
theorem c4_bounds_amended (cfg : SignalConfig) (now : ℚ)
    (lane_data : List (String × LaneData)) (s : ControllerState)
    (hne : lane_data ≠ [])
    (hno : lane_data.any (fun p => p.2.has_emergency) = false)
    (hped : s.pending_pedestrian_phases = [])
    (hturn : s.pending_turn_phases = [])
    (h1 : 0 < cfg.min_green) (h2 : cfg.min_green ≤ cfg.max_green)
    (h3 : 0 < cfg.yellow_duration)
    (h5 : cfg.min_cycle_time ≤ cfg.max_cycle_time) :
    (∀ lt ∈ allocate_green_times cfg
        (calculate_priorities cfg s.last_green_times now lane_data) lane_data,
      cfg.min_green ≤ lt.2 ∧ lt.2 ≤ cfg.max_green) ∧
    ∃ plan s2, allocate_time cfg now lane_data s = .ok (plan, s2) ∧
      ((cfg.min_cycle_time : ℤ) : ℚ) ≤ plan.total_cycle_time ∧
      plan.total_cycle_time ≤ ((cfg.max_cycle_time : ℤ) : ℚ) := by
  refine ⟨allocate_green_times_bounds cfg _ lane_data h2, ?_⟩
  have heq : allocate_time cfg now lane_data s =
      allocate_time_normal cfg now lane_data s := by
    simp [allocate_time, hno]
  rw [heq]
  exact allocate_time_normal_bounds cfg now lane_data s hne hped hturn h1 h2 h3 h5

/-- Witness for the amended bounds claim at a one-lane zero-demand map
under the default configuration. -/
theorem c4_bounds_amended_witness :
    (∀ lt ∈ allocate_green_times {}
        (calculate_priorities {} initState.last_green_times 0
          [("n", zeroLaneData)]) [("n", zeroLaneData)],
      SignalConfig.min_green {} ≤ lt.2 ∧ lt.2 ≤ SignalConfig.max_green {}) ∧
    ∃ plan s2, allocate_time {} 0 [("n", zeroLaneData)] initState =
        .ok (plan, s2) ∧
      ((SignalConfig.min_cycle_time {} : ℤ) : ℚ) ≤ plan.total_cycle_time ∧
      plan.total_cycle_time ≤ ((SignalConfig.max_cycle_time {} : ℤ) : ℚ) :=
  c4_bounds_amended {} 0 [("n", zeroLaneData)] initState
    (by simp) (by rfl) (by rfl) (by rfl)
    (by norm_num) (by norm_num) (by norm_num) (by norm_num)

end SmartFlow
